import Mathlib

/-!
Shallow embedding of the project-content synchronization layer of
`src/botxlab/src/App.tsx`: repository listing with org/user fallback
(`fetchRepos`, lines 169-199), catalog sorting and persistent caching,
cache rehydration (lines 123-128), the per-tab content loader
(`loadContent`, lines 207-248), the markdown link rewriters
(`markdownComponents`, lines 301-320), and project navigation
(`handleOpenProject`, lines 284-291).

JavaScript strings are modelled by Lean `String`; the string primitives
the source uses (`startsWith`, the one-shot anchored `replace(/^\.\//, '')`)
are defined over the character list `String.data`.  Timestamps compared by
the sort comparator via `new Date(_).getTime()` are modelled as `Nat`
millisecond values.  A JSON response body is modelled by its parsed value.
-/

namespace Botxlab

/-- JavaScript `s.startsWith(p)`: `p` is a character-wise prefix of `s`. -/
def jsStartsWith (s p : String) : Bool :=
  p.data.isPrefixOf s.data

/-- JavaScript `url.replace(/^\.\//, '')`: the anchored pattern matches at
most once, so exactly one leading `./` is stripped when present. -/
def stripDotSlash (url : String) : String :=
  if jsStartsWith url "./" then ⟨url.data.drop 2⟩ else url

/-- Repository record (interface `Repo`, lines 15-29).  `updated_at` holds
the `getTime()` value of the ISO timestamp, which is what the sort
comparator on line 187 compares. -/
structure Repo where
  id : Nat
  name : String
  full_name : String
  description : Option String
  stargazers_count : Nat
  updated_at : Nat
  language : Option String
  html_url : String
  default_branch : String
  homepage : Option String
  license : Option String
  open_issues_count : Nat
  topics : List String
  deriving DecidableEq

/-- Release record (interface `Release`, lines 31-39). -/
structure Release where
  id : Nat
  name : String
  tag_name : String
  prerelease : Bool
  published_at : String
  html_url : String
  body : String
  deriving DecidableEq

/-- Commit author (nested in interface `Commit`, lines 44-50). -/
structure CommitAuthor where
  name : String
  date : String
  deriving DecidableEq

/-- Commit payload (field `commit` of interface `Commit`). -/
structure CommitDetail where
  message : String
  author : CommitAuthor
  deriving DecidableEq

/-- Commit record (interface `Commit`, lines 41-51). -/
structure Commit where
  sha : String
  html_url : String
  commit : CommitDetail
  deriving DecidableEq

/-- Contributor record (interface `Collaborator`, lines 53-59). -/
structure Collaborator where
  id : Nat
  login : String
  avatar_url : String
  html_url : String
  contributions : Nat
  deriving DecidableEq

/-- Comparator of line 186-188:
`(a, b) => new Date(b.updated_at).getTime() - new Date(a.updated_at).getTime()`.
The pair `(a, b)` is kept in order when the difference is nonpositive,
that is when `b.updated_at ≤ a.updated_at`, so the array is ordered by
`updated_at` descending. -/
def updatedDescLe (a b : Repo) : Bool :=
  decide (b.updated_at ≤ a.updated_at)

/-- JavaScript `data.sort(comparator)` for the comparator above: a sort of
the list consistent with `updatedDescLe`. -/
def sortByUpdatedDesc (l : List Repo) : List Repo :=
  l.mergeSort updatedDescLe

theorem updatedDescLe_trans (a b c : Repo) :
    updatedDescLe a b → updatedDescLe b c → updatedDescLe a c := by
  simp only [updatedDescLe, decide_eq_true_eq]
  omega

theorem updatedDescLe_total (a b : Repo) :
    updatedDescLe a b || updatedDescLe b a := by
  simp only [updatedDescLe, Bool.or_eq_true, decide_eq_true_eq]
  omega

/-- Catalogs sorted by `updated_at` descending. -/
def reposSortedDesc (l : List Repo) : Prop :=
  l.Pairwise (fun a b => b.updated_at ≤ a.updated_at)

theorem sortByUpdatedDesc_sorted (l : List Repo) :
    reposSortedDesc (sortByUpdatedDesc l) := by
  have h := List.sorted_mergeSort updatedDescLe_trans updatedDescLe_total l
  exact h.imp (by simp [updatedDescLe])

/-! Persistent cache (`localStorage` key `botxlab_cache_v6`).  A stored
string is modelled by what `JSON.parse` does with it: `malformed` stands
for a string `JSON.parse` rejects, and `parsed v` for a string it accepts,
identified with the parsed value (for values written by
`JSON.stringify` on a repository array, stringify-then-parse is the
identity, so this identification is exact).  `jother` stands for a
parseable JSON value that is not an array of repository records, for
example the stored string `"{}"`. -/

/-- Parsed JSON value found in the cache. -/
inductive CacheJson where
  | jarr (repos : List Repo)
  | jother
  deriving DecidableEq

/-- Stored cache cell: a string as seen by `JSON.parse`. -/
inductive CacheCell where
  | parsed (v : CacheJson)
  | malformed
  deriving DecidableEq

/-- Initializer of the `repos` state (lines 123-128): read the cache key;
a missing value yields `[]`, a `JSON.parse` failure is caught and yields
`[]`, and any successfully parsed value is returned as-is, with no shape
check. -/
def initRepos : Option CacheCell → CacheJson
  | none => .jarr []
  | some .malformed => .jarr []
  | some (.parsed v) => v

/-- Cache write of line 191: `localStorage.setItem('botxlab_cache_v6',
JSON.stringify(processed))`, replacing any prior value. -/
def writeCache (repos : List Repo) : Option CacheCell :=
  some (.parsed (.jarr repos))

/-- Result of one `fetch` call: either a settled HTTP response (any
status; `fetch` resolves on non-2xx statuses too) carrying the parsed
body, or a transport-level rejection carrying the thrown error's
message. -/
inductive HttpResult (β : Type) where
  | response (status : Nat) (body : β)
  | transportError (msg : String)
  deriving DecidableEq

/-- JavaScript `Response.ok`: status in the range 200-299. -/
def isOk (status : Nat) : Bool :=
  decide (200 ≤ status) && decide (status ≤ 299)

/-- Whether a fetch settled with status 404 (the fallback test of
line 177). -/
def isStatus404 {β : Type} : HttpResult β → Bool
  | .response s _ => decide (s = 404)
  | .transportError _ => false

/-- Whether a fetch settled with a successful status. -/
def httpOk {β : Type} : HttpResult β → Bool
  | .response s _ => isOk s
  | .transportError _ => false

/-- Sync badge state (line 148). -/
inductive SyncStatus where
  | idle
  | loading
  | success
  | failed
  deriving DecidableEq

/-- Request headers built by `getHeaders` (lines 162-166): the `Accept`
header always, plus `Authorization: Bearer {token}` when the token is a
nonempty (truthy) string. -/
def getHeaders (token : String) : List (String × String) :=
  [("Accept", "application/vnd.github.v3+json")] ++
    (if token = "" then [] else [("Authorization", "Bearer " ++ token)])

/-- Query string shared by the two listing URLs of lines 174 and 178. -/
def reposQuery : String :=
  "sort=updated&per_page=100&type=all"

/-- Organization-scoped listing URL of line 174. -/
def orgReposUrl (org : String) : String :=
  "https://api.github.com/orgs/" ++ org ++ "/repos?" ++ reposQuery

/-- User-scoped listing URL of line 178. -/
def userReposUrl (org : String) : String :=
  "https://api.github.com/users/" ++ org ++ "/repos?" ++ reposQuery

/-- One issued listing request: URL plus headers. -/
structure ReposRequest where
  url : String
  headers : List (String × String)
  deriving DecidableEq

/-- Catalog-side state touched by `fetchRepos`: the `repos` state (which,
coming from the initializer, may hold a non-array parsed value), the
persisted cache, and the sync badge. -/
structure CatalogState where
  repos : CacheJson
  cache : Option CacheCell
  syncStatus : SyncStatus
  deriving DecidableEq

/-- Lines 175-180: the response the rest of `fetchRepos` works with, and
whether the user-scoped fallback was taken.  The org-scoped fetch runs
first; only when it settles with status 404 is the user-scoped fetch
issued and its result substituted.  An org-scoped transport rejection
jumps straight to the catch block, so no fallback happens. -/
def finalListing (orgRes userRes : HttpResult (List Repo)) :
    HttpResult (List Repo) × Bool :=
  match orgRes with
  | .transportError m => (.transportError m, false)
  | .response s body =>
      if s = 404 then (userRes, true) else (.response s body, false)

/-- Settled outcome of one run of `fetchRepos` (lines 169-199), given the
results of the (up to two) listing fetches: the final catalog state plus
the requests issued, in order.  The transient `reposLoading` /
`syncStatus = loading` flags are set and cleared inside the run and are
not part of the settled state. -/
def fetchRepos (org token : String) (st : CatalogState)
    (orgRes userRes : HttpResult (List Repo)) :
    CatalogState × List ReposRequest :=
  let orgReq : ReposRequest := ⟨orgReposUrl org, getHeaders token⟩
  let userReq : ReposRequest := ⟨userReposUrl org, getHeaders token⟩
  let res := finalListing orgRes userRes
  let issued := if res.2 then [orgReq, userReq] else [orgReq]
  match res.1 with
  | .transportError _ => ({ st with syncStatus := .failed }, issued)
  | .response s body =>
      if isOk s then
        let processed := sortByUpdatedDesc body
        ({ repos := .jarr processed, cache := writeCache processed,
           syncStatus := .success }, issued)
      else
        ({ st with syncStatus := .failed }, issued)

/-- Tab identifiers (type `TabState`, line 68). -/
inductive TabState where
  | readme
  | releases
  | commits
  | collaborators
  deriving DecidableEq

/-- View identifiers (type `ViewState`, line 67). -/
inductive ViewState where
  | dashboard
  | project
  deriving DecidableEq

/-- Content substate of the project view (lines 152-157, plus the
`contentLoading` flag of line 147). -/
structure ContentState where
  readmeContent : String
  releases : List Release
  commits : List Commit
  collaborators : List Collaborator
  contentError : Option String
  contentLoading : Bool
  deriving DecidableEq

/-- Catch-clause mapping of line 241: `err.message || "Error fetching
data"`; an empty (falsy) message falls back to the generic text. -/
def catchMessage (msg : String) : String :=
  if msg = "" then "Error fetching data" else msg

/-- Start of one `loadContent` run (lines 210-212): set the loading flag,
clear the error, and clear the readme text when the readme tab is
active. -/
def startContentLoad (tab : TabState) (st : ContentState) : ContentState :=
  let st := { st with contentLoading := true, contentError := none }
  if tab = .readme then { st with readmeContent := "" } else st

/-- Continuation of the readme branch after its fetch settles
(lines 217-223 and the catch/finally of lines 240-243): the branch checks
`res.ok` and throws `"README not found"` on a non-success status; the
result is applied with no check against the current selection. -/
def applyReadmeResult (st : ContentState) (res : HttpResult String) :
    ContentState :=
  let st :=
    match res with
    | .transportError m => { st with contentError := some (catchMessage m) }
    | .response s body =>
        if isOk s then { st with readmeContent := body }
        else { st with contentError := some (catchMessage "README not found") }
  { st with contentLoading := false }

/-- Continuation of the releases branch (lines 224-229): no `res.ok`
check; the parsed body is stored whatever the status, then an empty array
throws `"No releases found"`. -/
def applyReleasesResult (st : ContentState) (res : HttpResult (List Release)) :
    ContentState :=
  let st :=
    match res with
    | .transportError m => { st with contentError := some (catchMessage m) }
    | .response _ body =>
        let st := { st with releases := body }
        if body.length = 0 then
          { st with contentError := some (catchMessage "No releases found") }
        else st
  { st with contentLoading := false }

/-- Continuation of the commits branch (lines 230-233): no `res.ok` check
and no emptiness check; the parsed body is stored as-is. -/
def applyCommitsResult (st : ContentState) (res : HttpResult (List Commit)) :
    ContentState :=
  let st :=
    match res with
    | .transportError m => { st with contentError := some (catchMessage m) }
    | .response _ body => { st with commits := body }
  { st with contentLoading := false }

/-- Continuation of the collaborators branch (lines 234-239): no `res.ok`
check; the parsed body is stored, then an empty array throws
`"No contributors found"`. -/
def applyCollaboratorsResult (st : ContentState)
    (res : HttpResult (List Collaborator)) : ContentState :=
  let st :=
    match res with
    | .transportError m => { st with contentError := some (catchMessage m) }
    | .response _ body =>
        let st := { st with collaborators := body }
        if body.length = 0 then
          { st with contentError := some (catchMessage "No contributors found") }
        else st
  { st with contentLoading := false }

/-- Fetch result for the selected tab: raw text for the readme endpoint,
parsed arrays for the JSON endpoints. -/
inductive TabResponse where
  | readme (r : HttpResult String)
  | releases (r : HttpResult (List Release))
  | commits (r : HttpResult (List Commit))
  | collaborators (r : HttpResult (List Collaborator))
  deriving DecidableEq

/-- Settled content state after one full `loadContent` run (lines
207-248) for the given tab's fetch result. -/
def loadContent (st : ContentState) (tr : TabResponse) : ContentState :=
  match tr with
  | .readme r => applyReadmeResult (startContentLoad .readme st) r
  | .releases r => applyReleasesResult (startContentLoad .releases st) r
  | .commits r => applyCommitsResult (startContentLoad .commits st) r
  | .collaborators r =>
      applyCollaboratorsResult (startContentLoad .collaborators st) r

/-! Trace model of the readme flow.  The effect of lines 207-248 installs
no cleanup and `loadContent` compares nothing against the current
selection before applying a settled result, so a fetch issued for one
repository is applied even after the selection has moved on. -/

/-- Visible project-view state for the readme flow: the id of the
selected repository plus the content substate. -/
structure SessionState where
  currentRepo : Nat
  content : ContentState
  deriving DecidableEq

/-- Events of the readme flow.  `select r` is `handleOpenProject` on
repository `r` followed by the start of the content effect: the selection
changes, loading is set, the error and readme text are cleared, and a
readme fetch for `r` is issued.  `settle r res` is the resolution of the
fetch that was issued for repository `r`: the continuation applies `res`
to the visible state unconditionally. -/
inductive SessionEvent where
  | select (repo : Nat)
  | settle (repo : Nat) (res : HttpResult String)
  deriving DecidableEq

/-- One step of the readme flow. -/
def stepSession (st : SessionState) (e : SessionEvent) : SessionState :=
  match e with
  | .select r =>
      { currentRepo := r,
        content := startContentLoad .readme st.content }
  | .settle _ res =>
      { st with content := applyReadmeResult st.content res }

/-- Run of a whole event trace. -/
def runSession (st : SessionState) (events : List SessionEvent) :
    SessionState :=
  events.foldl stepSession st

/-! Markdown link rewriters (`markdownComponents`, lines 301-320). -/

/-- Branch used by both rewriters (lines 305 and 314):
`currentRepo.default_branch || 'master'`; an empty (falsy) branch string
falls back to `master`. -/
def branchOf (repo : Repo) : String :=
  if repo.default_branch = "" then "master" else repo.default_branch

/-- Raw-content URL template of line 307. -/
def rawContentUrl (fullName branch path : String) : String :=
  "https://raw.githubusercontent.com/" ++ fullName ++ "/" ++ branch ++ "/" ++ path

/-- Blob-view URL template of line 316. -/
def blobUrl (fullName branch path : String) : String :=
  "https://github.com/" ++ fullName ++ "/blob/" ++ branch ++ "/" ++ path

/-- Image `src` rewriting (lines 302-309): rewrite unless a repository is
not selected or the value starts with `http` or `data:`. -/
def rewriteImgSrc (currentRepo : Option Repo) (src : String) : String :=
  match currentRepo with
  | none => src
  | some repo =>
      if !jsStartsWith src "http" && !jsStartsWith src "data:" then
        rawContentUrl repo.full_name (branchOf repo) (stripDotSlash src)
      else src

/-- Link `href` rewriting (lines 311-318): rewrite unless a repository is
not selected or the value starts with `http`, `#`, or `mailto:`. -/
def rewriteLinkHref (currentRepo : Option Repo) (href : String) : String :=
  match currentRepo with
  | none => href
  | some repo =>
      if !jsStartsWith href "http" && !jsStartsWith href "#" &&
          !jsStartsWith href "mailto:" then
        blobUrl repo.full_name (branchOf repo) (stripDotSlash href)
      else href

/-! Navigation. -/

/-- Navigation-side state touched by `handleOpenProject` (lines 135-143
plus the catalog). -/
structure AppState where
  repos : List Repo
  currentRepo : Option Repo
  view : ViewState
  activeTab : TabState
  searchTerm : String
  isSidebarOpen : Bool
  isMobileTabMenuOpen : Bool
  deriving DecidableEq

/-- Handler `handleOpenProject` (lines 284-291): select the repository,
switch to the project view, reset the tab to readme, close both menus and
clear the search term. -/
def handleOpenProject (st : AppState) (repo : Repo) : AppState :=
  { st with
    currentRepo := some repo,
    view := .project,
    activeTab := .readme,
    isSidebarOpen := false,
    isMobileTabMenuOpen := false,
    searchTerm := "" }

/-! Scheme detection, used only to state the spec's classification of
inputs.  The source guards on `startsWith('http')`, not on the presence
of a URI scheme; this predicate expresses the spec's wording so the two
can be compared. -/

/-- Character allowed after the first character of a URI scheme. -/
def isSchemeChar (c : Char) : Bool :=
  c.isAlphanum || c = '+' || c = '-' || c = '.'

/-- Scan for the colon that ends a URI scheme. -/
def schemeTail : List Char → Bool
  | [] => false
  | c :: rest =>
      if c = ':' then true
      else if isSchemeChar c then schemeTail rest else false

/-- Modelled from the spec: the spec's "absolute URL (scheme present)"
classification, absent from the source, which tests `startsWith('http')`
instead.  A URL has a scheme when it begins with a letter followed by
scheme characters and a colon (RFC 3986). -/
def specHasScheme (url : String) : Bool :=
  match url.data with
  | [] => false
  | c :: rest => c.isAlpha && schemeTail rest

/-! Sample values used by witnesses and counterexamples. -/

/-- Sample repository on branch `main`. -/
def sampleRepo : Repo :=
  { id := 1, name := "widgets", full_name := "acme/widgets",
    description := none, stargazers_count := 3,
    updated_at := 1700000000000, language := some "TypeScript",
    html_url := "https://github.com/acme/widgets", default_branch := "main",
    homepage := none, license := none, open_issues_count := 0, topics := [] }

/-- Second sample repository, updated earlier than `sampleRepo`. -/
def sampleRepo2 : Repo :=
  { sampleRepo with
    id := 2, name := "older", full_name := "acme/older",
    updated_at := 1600000000000 }

/-- Sample release. -/
def sampleRelease : Release :=
  { id := 10, name := "v1", tag_name := "v1.0.0", prerelease := false,
    published_at := "2024-01-01T00:00:00Z",
    html_url := "https://github.com/acme/widgets/releases/v1.0.0",
    body := "notes" }

/-- Empty content substate, as on first render. -/
def contentInit : ContentState :=
  { readmeContent := "", releases := [], commits := [], collaborators := [],
    contentError := none, contentLoading := false }

/-- Catalog state holding one repository in memory and in the cache. -/
def catalogWithSample : CatalogState :=
  { repos := .jarr [sampleRepo], cache := writeCache [sampleRepo],
    syncStatus := .idle }

/-- Session state before any selection. -/
def sessionInit : SessionState :=
  { currentRepo := 0, content := contentInit }

/-- Race trace: repository 1 is opened and its readme fetch goes out;
before it resolves the user opens repository 2, whose fetch resolves
first; then repository 1's stale fetch resolves last. -/
def c1Trace : List SessionEvent :=
  [.select 1, .select 2, .settle 2 (.response 200 "# Repo B"),
   .settle 1 (.response 200 "# Repo A")]

/-! Helper lemmas. -/

/-- The fallback flag of `finalListing` is set exactly when the
org-scoped fetch settled with status 404. -/
theorem finalListing_snd (orgRes userRes : HttpResult (List Repo)) :
    (finalListing orgRes userRes).2 = isStatus404 orgRes := by
  cases orgRes with
  | transportError m => rfl
  | response s body =>
      simp only [finalListing, isStatus404]
      split <;> simp_all

/-- The response `fetchRepos` acts on is the user-scoped one exactly
after a 404 on the org-scoped endpoint, the org-scoped one otherwise. -/
theorem finalListing_fst (orgRes userRes : HttpResult (List Repo)) :
    (finalListing orgRes userRes).1 =
      (if isStatus404 orgRes then userRes else orgRes) := by
  cases orgRes with
  | transportError m => rfl
  | response s body =>
      simp only [finalListing, isStatus404]
      split <;> simp_all

/-- Requests issued by one `fetchRepos` run: the org-scoped one always
and first, the user-scoped one exactly when the org-scoped fetch settled
with status 404, both with the same query string and headers. -/
theorem fetchRepos_requests (org token : String) (st : CatalogState)
    (orgRes userRes : HttpResult (List Repo)) :
    (fetchRepos org token st orgRes userRes).2 =
      (if isStatus404 orgRes then
        [⟨orgReposUrl org, getHeaders token⟩, ⟨userReposUrl org, getHeaders token⟩]
      else [⟨orgReposUrl org, getHeaders token⟩]) := by
  cases orgRes with
  | transportError m => rfl
  | response s body =>
      by_cases h : s = 404
      · cases userRes with
        | transportError m2 => simp [fetchRepos, finalListing, isStatus404, h]
        | response s2 body2 =>
            simp [fetchRepos, finalListing, isStatus404, h]
            split <;> rfl
      · simp [fetchRepos, finalListing, isStatus404, h]
        split <;> rfl

/-- The run ends in the success badge exactly when the effective
response settled with a 2xx status. -/
theorem fetchRepos_syncStatus (org token : String) (st : CatalogState)
    (orgRes userRes : HttpResult (List Repo)) :
    (fetchRepos org token st orgRes userRes).1.syncStatus =
      (if httpOk (finalListing orgRes userRes).1 then SyncStatus.success
       else SyncStatus.failed) := by
  cases orgRes with
  | transportError m => rfl
  | response s body =>
      by_cases h : s = 404
      · cases userRes with
        | transportError m2 => simp [fetchRepos, finalListing, httpOk, h]
        | response s2 body2 =>
            simp [fetchRepos, finalListing, httpOk, h]
            split <;> rfl
      · simp [fetchRepos, finalListing, httpOk, h]
        split <;> rfl

/-- Every `fetchRepos` run either fails and only flips the badge, or
succeeds and replaces the catalog and cache with the sorted body of the
effective response. -/
theorem fetchRepos_cases (org token : String) (st : CatalogState)
    (orgRes userRes : HttpResult (List Repo)) :
    (fetchRepos org token st orgRes userRes).1 = { st with syncStatus := .failed } ∨
    ∃ body, httpOk (finalListing orgRes userRes).1 = true ∧
      (fetchRepos org token st orgRes userRes).1 =
        { repos := .jarr (sortByUpdatedDesc body),
          cache := writeCache (sortByUpdatedDesc body),
          syncStatus := .success } := by
  cases orgRes with
  | transportError m => exact Or.inl rfl
  | response s body =>
      by_cases h : s = 404
      · cases userRes with
        | transportError m2 =>
            left
            simp [fetchRepos, finalListing, h]
        | response s2 body2 =>
            by_cases h2 : isOk s2 = true
            · right
              exact ⟨body2, by simp [finalListing, httpOk, h, h2],
                by simp [fetchRepos, finalListing, h, h2]⟩
            · left
              simp [fetchRepos, finalListing, h, h2]
      · by_cases h2 : isOk s = true
        · right
          exact ⟨body, by simp [finalListing, httpOk, h, h2],
            by simp [fetchRepos, finalListing, h, h2]⟩
        · left
          simp [fetchRepos, finalListing, h, h2]

/-! Claim theorems. -/

/-- C2: resolution issues the organization-scoped listing first; if and
only if that request settles with status 404 does it retry on the
user-scoped endpoint, exactly once, with the identical query string and
headers; and the run ends in the failed sync state exactly when the
effective response — the user-scoped one after a 404 fallback, the
org-scoped one otherwise — is a transport rejection or carries a
non-success status (covering a 404 on both endpoints and any other
non-success status); no data is fabricated on failure. -/
theorem c2_resolution_fallback (org token : String) (st : CatalogState)
    (orgRes userRes : HttpResult (List Repo)) :
    (fetchRepos org token st orgRes userRes).2 =
      (if isStatus404 orgRes then
        [⟨orgReposUrl org, getHeaders token⟩, ⟨userReposUrl org, getHeaders token⟩]
       else [⟨orgReposUrl org, getHeaders token⟩]) ∧
    orgReposUrl org = "https://api.github.com/orgs/" ++ org ++ "/repos?" ++ reposQuery ∧
    userReposUrl org = "https://api.github.com/users/" ++ org ++ "/repos?" ++ reposQuery ∧
    ((fetchRepos org token st orgRes userRes).1.syncStatus = SyncStatus.failed ↔
      httpOk (if isStatus404 orgRes then userRes else orgRes) = false) := by
  refine ⟨fetchRepos_requests org token st orgRes userRes, rfl, rfl, ?_⟩
  rw [fetchRepos_syncStatus, ← finalListing_fst]
  split <;> simp_all

/-- C3: after every `fetchRepos` run that ends in the success sync state,
the in-memory catalog — and hence the persisted copy — is an array sorted
by `updated_at` descending, for every collection the data source
returned. -/
theorem c3_catalog_sorted_after_load (org token : String) (st : CatalogState)
    (orgRes userRes : HttpResult (List Repo))
    (h : (fetchRepos org token st orgRes userRes).1.syncStatus = SyncStatus.success) :
    ∃ l, (fetchRepos org token st orgRes userRes).1.repos = CacheJson.jarr l ∧
      (fetchRepos org token st orgRes userRes).1.cache = writeCache l ∧
      reposSortedDesc l := by
  rcases fetchRepos_cases org token st orgRes userRes with hc | ⟨body, _, hc⟩
  · rw [hc] at h
    simp at h
  · exact ⟨sortByUpdatedDesc body, by rw [hc], by rw [hc],
      sortByUpdatedDesc_sorted body⟩

/-- C3 witness: a successful load of two out-of-order repositories ends
with a sorted catalog. -/
theorem c3_catalog_sorted_witness :
    ∃ l, (fetchRepos "acme" "" catalogWithSample
        (.response 200 [sampleRepo2, sampleRepo]) (.transportError "x")).1.repos =
        CacheJson.jarr l ∧
      (fetchRepos "acme" "" catalogWithSample
        (.response 200 [sampleRepo2, sampleRepo]) (.transportError "x")).1.cache =
        writeCache l ∧
      reposSortedDesc l :=
  c3_catalog_sorted_after_load "acme" "" catalogWithSample _ _ (by decide)

/-- C8: a failed refresh leaves both the in-memory collection and the
persisted cache untouched, while a successful load replaces the cache
wholesale with the serialization of the new in-memory collection
(last-writer-wins, no merge). -/
theorem c8_refresh_frame (org token : String) (st : CatalogState)
    (orgRes userRes : HttpResult (List Repo)) :
    ((fetchRepos org token st orgRes userRes).1.syncStatus = SyncStatus.failed →
      (fetchRepos org token st orgRes userRes).1.repos = st.repos ∧
      (fetchRepos org token st orgRes userRes).1.cache = st.cache) ∧
    ((fetchRepos org token st orgRes userRes).1.syncStatus = SyncStatus.success →
      ∃ l, (fetchRepos org token st orgRes userRes).1.repos = CacheJson.jarr l ∧
        (fetchRepos org token st orgRes userRes).1.cache = writeCache l) := by
  rcases fetchRepos_cases org token st orgRes userRes with hc | ⟨body, _, hc⟩
  · rw [hc]
    refine ⟨fun _ => ⟨rfl, rfl⟩, fun h => absurd h (by simp)⟩
  · rw [hc]
    refine ⟨fun h => absurd h (by simp), fun _ => ⟨sortByUpdatedDesc body, rfl, rfl⟩⟩

/-- C8 witness: a transport failure on a refresh leaves a populated
catalog and its cache unchanged. -/
theorem c8_refresh_frame_witness :
    (fetchRepos "acme" "" catalogWithSample (.transportError "down")
      (.transportError "down")).1.repos = catalogWithSample.repos ∧
    (fetchRepos "acme" "" catalogWithSample (.transportError "down")
      (.transportError "down")).1.cache = catalogWithSample.cache :=
  (c8_refresh_frame "acme" "" catalogWithSample _ _).1 (by decide)

/-- C9 counterexample: a persisted value that parses but is not an array
of repository records — for example the stored string of a JSON object —
is not treated as the empty collection: the initializer returns the
parsed value as-is, with no shape check, contrary to the claim. -/
theorem c9_shape_counterexample :
    initRepos (some (.parsed .jother)) = CacheJson.jother ∧
    initRepos (some (.parsed .jother)) ≠ CacheJson.jarr [] := by
  decide

/-- C9 amended: rehydration returns exactly the collection last written —
write-then-read is the identity, also through a successful `fetchRepos`
run — and an absent or unparseable persisted value is treated as the
empty collection, never surfaced as an error; but a parseable persisted
value of mismatched shape is returned unvalidated rather than treated as
empty. -/
theorem c9_rehydration (l : List Repo) (v : CacheJson) (org token : String)
    (st : CatalogState) (userRes : HttpResult (List Repo)) :
    initRepos (writeCache l) = CacheJson.jarr l ∧
    initRepos none = CacheJson.jarr [] ∧
    initRepos (some .malformed) = CacheJson.jarr [] ∧
    initRepos (some (.parsed v)) = v ∧
    initRepos ((fetchRepos org token st (.response 200 l) userRes).1.cache) =
      (fetchRepos org token st (.response 200 l) userRes).1.repos :=
  ⟨rfl, rfl, rfl, rfl, rfl⟩

/-- C10: opening any repository from navigation selects it in the project
view, always resets the active tab to readme and clears the search term —
whatever tab or filter was active before — and leaves the repository
collection unchanged. -/
theorem c10_open_project_resets (st : AppState) (repo : Repo) :
    (handleOpenProject st repo).activeTab = TabState.readme ∧
    (handleOpenProject st repo).searchTerm = "" ∧
    (handleOpenProject st repo).repos = st.repos ∧
    (handleOpenProject st repo).currentRepo = some repo ∧
    (handleOpenProject st repo).view = ViewState.project :=
  ⟨rfl, rfl, rfl, rfl, rfl⟩

/-- C4: for a successful fetch whose result collection is empty, the
releases tab ends in the failed state with reason `No releases found` and
the contributors tab ends in the failed state with reason
`No contributors found`, while the commits tab ends ready with an empty
list and no error — the asymmetry is preserved.  (The code throws on an
empty array before any status check, so this holds for every status; the
hypothesis restricts the statement to the successful fetches the claim is
about.) -/
theorem c4_empty_collections (st : ContentState) (s : Nat)
    (_ok : isOk s = true) :
    (loadContent st (.releases (.response s []))).contentError =
      some "No releases found" ∧
    (loadContent st (.collaborators (.response s []))).contentError =
      some "No contributors found" ∧
    (loadContent st (.commits (.response s []))).contentError = none ∧
    (loadContent st (.commits (.response s []))).commits = [] :=
  ⟨rfl, rfl, rfl, rfl⟩

/-- C4 witness: the empty-collection policies at status 200 from the
blank content state. -/
theorem c4_empty_collections_witness :
    isOk 200 = true ∧
    (loadContent contentInit (.releases (.response 200 []))).contentError =
      some "No releases found" ∧
    (loadContent contentInit (.collaborators (.response 200 []))).contentError =
      some "No contributors found" ∧
    (loadContent contentInit (.commits (.response 200 []))).contentError = none ∧
    (loadContent contentInit (.commits (.response 200 []))).commits = [] :=
  ⟨by decide, c4_empty_collections contentInit 200 (by decide)⟩

/-- C5 counterexample: a releases fetch that settles with non-success
status 500 and a nonempty parsed array is not mapped into the failed
state — the loader stores the body and reports no error, because the
releases, commits and contributors branches never check `res.ok`;
contrary to the claim that every non-success status is mapped to
`failed(reason)`. -/
theorem c5_status_counterexample :
    isOk 500 = false ∧
    (loadContent contentInit
      (.releases (.response 500 [sampleRelease]))).contentError = none ∧
    (loadContent contentInit
      (.releases (.response 500 [sampleRelease]))).releases = [sampleRelease] := by
  decide

/-- C5 amended: every branch of the loader runs inside the try/catch, so
a transport failure on any tab is mapped into the failed state carrying
the underlying message (with the literal `Error fetching data` substituted
only for an empty message) and the loading flag always clears — nothing
escapes and nothing is retried; but only the readme branch checks the
HTTP status (non-success becomes `README not found`), while the releases,
commits and contributors branches store the parsed body whatever the
status, with only the empty-array checks of C4 producing a failed
state. -/
theorem c5_error_mapping (st : ContentState) (m : String) (s : Nat)
    (body : String) (rels : List Release) (cs : List Commit)
    (cols : List Collaborator) (tr : TabResponse) :
    (loadContent st (.readme (.transportError m))).contentError =
      some (catchMessage m) ∧
    (loadContent st (.releases (.transportError m))).contentError =
      some (catchMessage m) ∧
    (loadContent st (.commits (.transportError m))).contentError =
      some (catchMessage m) ∧
    (loadContent st (.collaborators (.transportError m))).contentError =
      some (catchMessage m) ∧
    (loadContent st (.readme (.response s body))).contentError =
      (if isOk s then none else some "README not found") ∧
    (loadContent st (.releases (.response s rels))).releases = rels ∧
    (loadContent st (.releases (.response s rels))).contentError =
      (if rels.length = 0 then some "No releases found" else none) ∧
    (loadContent st (.commits (.response s cs))).commits = cs ∧
    (loadContent st (.commits (.response s cs))).contentError = none ∧
    (loadContent st (.collaborators (.response s cols))).collaborators = cols ∧
    (loadContent st (.collaborators (.response s cols))).contentError =
      (if cols.length = 0 then some "No contributors found" else none) ∧
    (loadContent st tr).contentLoading = false := by
  refine ⟨rfl, rfl, rfl, rfl, ?_, ?_, ?_, rfl, rfl, ?_, ?_, ?_⟩
  · by_cases h : isOk s = true <;>
      simp [loadContent, applyReadmeResult, startContentLoad, catchMessage, h]
  · by_cases h : rels.length = 0 <;>
      simp [loadContent, applyReleasesResult, startContentLoad, catchMessage, h]
  · by_cases h : rels.length = 0 <;>
      simp [loadContent, applyReleasesResult, startContentLoad, catchMessage, h]
  · by_cases h : cols.length = 0 <;>
      simp [loadContent, applyCollaboratorsResult, startContentLoad, catchMessage, h]
  · by_cases h : cols.length = 0 <;>
      simp [loadContent, applyCollaboratorsResult, startContentLoad, catchMessage, h]
  · cases tr <;> rfl

/-- C1 counterexample: on the race trace, once both fetches settle the
selection is repository 2 but the visible readme text is repository 1's
content — the stale result was applied, not discarded, because the
content effect installs no cleanup and the settle path performs no
staleness check.  This refutes the claim that A's late result never
overwrites B's. -/
theorem c1_stale_counterexample :
    (runSession sessionInit c1Trace).currentRepo = 2 ∧
    (runSession sessionInit c1Trace).content.readmeContent = "# Repo A" ∧
    "# Repo A" ≠ "# Repo B" := by
  decide

/-- C1 amended: an in-flight readme fetch whose repository no longer
matches the current selection is still applied when it settles — a
successful settle always installs its body as the visible readme text and
leaves the selection alone — so after opening A then B, the visible state
shows whichever fetch settled last: A's content when A's stale fetch
settles after B's, and B's content only when B's settles last. -/
theorem c1_last_settled_wins (st : SessionState) (a b r : Nat)
    (ca cb body : String) :
    (stepSession st (.settle r (.response 200 body))).content.readmeContent =
      body ∧
    (stepSession st (.settle r (.response 200 body))).currentRepo =
      st.currentRepo ∧
    (runSession st [.select a, .select b, .settle b (.response 200 cb),
        .settle a (.response 200 ca)]).currentRepo = b ∧
    (runSession st [.select a, .select b, .settle b (.response 200 cb),
        .settle a (.response 200 ca)]).content.readmeContent = ca ∧
    (runSession st [.select a, .select b, .settle a (.response 200 ca),
        .settle b (.response 200 cb)]).content.readmeContent = cb :=
  ⟨rfl, rfl, rfl, rfl, rfl⟩

/-! Rewriter lemmas. -/

/-- A string with `./` prepended starts with `./`. -/
theorem jsStartsWith_dotSlash (p : String) :
    jsStartsWith ("./" ++ p) "./" = true := by
  simp [jsStartsWith, List.isPrefixOf_cons₂]

/-- Stripping undoes one prepended `./`. -/
theorem stripDotSlash_dotSlash (p : String) :
    stripDotSlash ("./" ++ p) = p := by
  simp [stripDotSlash, jsStartsWith_dotSlash]

/-- Every blob-view URL starts with `http`. -/
theorem jsStartsWith_blobUrl (f b p : String) :
    jsStartsWith (blobUrl f b p) "http" = true := rfl

/-- Every raw-content URL starts with `http`. -/
theorem jsStartsWith_rawContentUrl (f b p : String) :
    jsStartsWith (rawContentUrl f b p) "http" = true := rfl

/-- The link rewriter is idempotent: a rewritten href starts with `http`
and passes through the second application. -/
theorem rewriteLinkHref_idem (repo : Option Repo) (url : String) :
    rewriteLinkHref repo (rewriteLinkHref repo url) =
      rewriteLinkHref repo url := by
  cases repo with
  | none => rfl
  | some r =>
      by_cases h : (!jsStartsWith url "http" && !jsStartsWith url "#" &&
          !jsStartsWith url "mailto:") = true
      · simp [rewriteLinkHref, h, jsStartsWith_blobUrl]
      · simp [rewriteLinkHref, h]

/-- The image rewriter is idempotent: a rewritten src starts with `http`
and passes through the second application. -/
theorem rewriteImgSrc_idem (repo : Option Repo) (url : String) :
    rewriteImgSrc repo (rewriteImgSrc repo url) = rewriteImgSrc repo url := by
  cases repo with
  | none => rfl
  | some r =>
      by_cases h : (!jsStartsWith url "http" && !jsStartsWith url "data:") = true
      · simp [rewriteImgSrc, h, jsStartsWith_rawContentUrl]
      · simp [rewriteImgSrc, h]

/-- C6 counterexample: the claim fails for images and for non-`http`
schemes.  A fragment-only image src and a `mailto:` image src are
rewritten (the image guard checks only `http` and `data:`), and a link
with the scheme `ftp` — an absolute URL in the claim's sense — is also
rewritten, since the link guard tests `startsWith('http')`, not scheme
presence. -/
theorem c6_passthrough_counterexample :
    rewriteImgSrc (some sampleRepo) "#section-1" =
      "https://raw.githubusercontent.com/acme/widgets/main/#section-1" ∧
    rewriteImgSrc (some sampleRepo) "#section-1" ≠ "#section-1" ∧
    rewriteImgSrc (some sampleRepo) "mailto:dev@acme.org" ≠
      "mailto:dev@acme.org" ∧
    specHasScheme "ftp://acme.org/f" = true ∧
    rewriteLinkHref (some sampleRepo) "ftp://acme.org/f" ≠
      "ftp://acme.org/f" := by
  decide

/-- C6 amended: an input starting with `http` passes through both
rewriters unchanged; for links, inputs starting with `#` or `mailto:`
also pass through; for images, inputs starting with `data:` also pass
through (but fragment and `mailto:` image srcs are rewritten); and both
rewriters are idempotent, since every rewritten output starts with
`http`. -/
theorem c6_passthrough_idempotent (repo : Option Repo) (url : String) :
    (jsStartsWith url "http" = true →
      rewriteLinkHref repo url = url ∧ rewriteImgSrc repo url = url) ∧
    (jsStartsWith url "#" = true → rewriteLinkHref repo url = url) ∧
    (jsStartsWith url "mailto:" = true → rewriteLinkHref repo url = url) ∧
    (jsStartsWith url "data:" = true → rewriteImgSrc repo url = url) ∧
    rewriteLinkHref repo (rewriteLinkHref repo url) = rewriteLinkHref repo url ∧
    rewriteImgSrc repo (rewriteImgSrc repo url) = rewriteImgSrc repo url := by
  refine ⟨fun h => ⟨?_, ?_⟩, fun h => ?_, fun h => ?_, fun h => ?_,
    rewriteLinkHref_idem repo url, rewriteImgSrc_idem repo url⟩
  · cases repo <;> simp [rewriteLinkHref, h]
  · cases repo <;> simp [rewriteImgSrc, h]
  · cases repo <;> simp [rewriteLinkHref, h]
  · cases repo <;> simp [rewriteLinkHref, h]
  · cases repo <;> simp [rewriteImgSrc, h]

/-- C6 witness: a fragment-only href passes through the link rewriter. -/
theorem c6_passthrough_witness :
    rewriteLinkHref (some sampleRepo) "#section-1" = "#section-1" :=
  (c6_passthrough_idempotent (some sampleRepo) "#section-1").2.1 (by decide)

/-- C7 counterexample: `httpdocs/a.png` is a relative path — no scheme,
not fragment-only, not `mailto:` — yet both rewriters return it
unchanged instead of producing the raw-content or blob-view form,
because the guard tests `startsWith('http')` rather than scheme
presence. -/
theorem c7_relative_counterexample :
    specHasScheme "httpdocs/a.png" = false ∧
    jsStartsWith "httpdocs/a.png" "#" = false ∧
    jsStartsWith "httpdocs/a.png" "mailto:" = false ∧
    rewriteImgSrc (some sampleRepo) "httpdocs/a.png" = "httpdocs/a.png" ∧
    rewriteLinkHref (some sampleRepo) "httpdocs/a.png" = "httpdocs/a.png" ∧
    rewriteImgSrc (some sampleRepo) "httpdocs/a.png" ≠
      rawContentUrl sampleRepo.full_name (branchOf sampleRepo) "httpdocs/a.png" ∧
    rewriteLinkHref (some sampleRepo) "httpdocs/a.png" ≠
      blobUrl sampleRepo.full_name (branchOf sampleRepo) "httpdocs/a.png" := by
  decide

/-- C7 amended: for every input that does not start with `http` (for
images, nor with `data:`; for links, nor with `#` or `mailto:`), one
leading `./` is stripped and an image src is rewritten to the
raw-content form `{rawHost}/{fullName}/{defaultBranch}/{path}` while a
link href is rewritten to the blob-view form
`{webHost}/{fullName}/blob/{defaultBranch}/{path}`; stripping undoes
exactly one leading `./`. -/
theorem c7_relative_rewrite (r : Repo) (url : String) :
    ((!jsStartsWith url "http" && !jsStartsWith url "data:") = true →
      rewriteImgSrc (some r) url =
        rawContentUrl r.full_name (branchOf r) (stripDotSlash url)) ∧
    ((!jsStartsWith url "http" && !jsStartsWith url "#" &&
        !jsStartsWith url "mailto:") = true →
      rewriteLinkHref (some r) url =
        blobUrl r.full_name (branchOf r) (stripDotSlash url)) ∧
    stripDotSlash ("./" ++ url) = url := by
  refine ⟨fun h => ?_, fun h => ?_, stripDotSlash_dotSlash url⟩
  · simp [rewriteImgSrc, h]
  · simp [rewriteLinkHref, h]

/-- C7 witness: the spec's own example — `./img/a.png` as an image for
`acme/widgets` on branch `main` yields the raw-content URL ending in
`acme/widgets/main/img/a.png`. -/
theorem c7_relative_rewrite_witness :
    rewriteImgSrc (some sampleRepo) "./img/a.png" =
      "https://raw.githubusercontent.com/acme/widgets/main/img/a.png" := by
  have h := (c7_relative_rewrite sampleRepo "./img/a.png").1 (by decide)
  rw [h]
  decide

end Botxlab
